import Mathlib

/-!
Verification development for the ui-toolkit-react components: the KVM
remote-desktop component, the Serial-Over-LAN terminal wrapper, the IDER
disk-redirection component and the KVM encoding dropdown.

Stateful React code is modelled by explicit state records; each handler
is a function from the old state to the new state paired with the list
of external effects it emits, in order (calls into the external core
library, browser timers, clipboard operations and canvas clears).
-/

namespace UiToolkit

/-- Worker for the JavaScript expression s.replace(pat, rep) with a
string pattern: only the first occurrence of pat is replaced. -/
def replaceFirstAux (pat rep : List Char) : List Char → List Char
  | [] => []
  | c :: rest =>
    if pat.isPrefixOf (c :: rest) then rep ++ (c :: rest).drop pat.length
    else c :: replaceFirstAux pat rep rest

/-- Model of the JavaScript expression s.replace(pat, rep) for string
patterns: JavaScript replaces only the first occurrence. -/
def jsReplaceFirst (s pat rep : String) : String :=
  String.mk (replaceFirstAux pat.toList rep.toList s.toList)

/-- Protocol identifiers of the external core library (SOL = 1, KVM = 2,
IDER = 3, as fixed by the core mock in src/mocks/ui-toolkit-core.ts). -/
def Protocol.SOL : Nat := 1

/-- Protocol identifier for KVM sessions. -/
def Protocol.KVM : Nat := 2

/-- Protocol identifier for IDER sessions. -/
def Protocol.IDER : Nat := 3

/-- Plain configuration record handed to the external redirector
constructors. The fr field holds a fresh FileReader, modelled opaquely. -/
structure RedirectorConfig where
  mode : String
  protocol : Nat
  fr : Unit
  host : String
  port : Nat
  user : String
  pass : String
  tls : Nat
  tls1only : Nat
  authToken : String
  server : String
deriving DecidableEq

/-- KVM config as built in init of the KVM component: host is the device
GUID or the empty string, server is the mpsServer URL with the first
occurrence of http replaced by ws, or the empty string when null. -/
def mkKvmConfig (deviceId mpsServer : Option String) (authToken : String) :
    RedirectorConfig :=
  { mode := "kvm"
    protocol := Protocol.KVM
    fr := ()
    host := deviceId.getD ""
    port := 16994
    user := ""
    pass := ""
    tls := 0
    tls1only := 0
    authToken := authToken
    server :=
      match mpsServer with
      | some srv => jsReplaceFirst srv "http" "ws"
      | none => "" }

/-- SOL config as built in the Sol component effect; the authToken is
guarded by a null check in the source. -/
def mkSolConfig (deviceId mpsServer authToken : Option String) :
    RedirectorConfig :=
  { mode := "sol"
    protocol := Protocol.SOL
    fr := ()
    host := deviceId.getD ""
    port := 16994
    user := ""
    pass := ""
    tls := 0
    tls1only := 0
    authToken := authToken.getD ""
    server :=
      match mpsServer with
      | some srv => jsReplaceFirst srv "http" "ws"
      | none => "" }

/-- IDER config as built in the IDER component mount effect. -/
def mkIderConfig (deviceId mpsServer authToken : Option String) :
    RedirectorConfig :=
  { mode := "ider"
    protocol := Protocol.IDER
    fr := ()
    host := deviceId.getD ""
    port := 16994
    user := ""
    pass := ""
    tls := 0
    tls1only := 0
    authToken := authToken.getD ""
    server :=
      match mpsServer with
      | some srv => jsReplaceFirst srv "http" "ws"
      | none => "" }

/-- External AMTDesktop handler object; only its bpp field (the encoding
in force) is observable to the component logic. -/
structure AMTDesktop where
  bpp : Nat
deriving DecidableEq

/-- External MouseHelper object; only the debounce value passed to its
constructor is relevant here. JavaScript numbers are modelled as Int. -/
structure MouseHelper where
  debounce : Int
deriving DecidableEq

/-- Props of the KVM component that affect connection behaviour. -/
structure KVMProps where
  deviceId : Option String
  mpsServer : Option String
  mouseDebounceTime : Int
  authToken : String
deriving DecidableEq

/-- Action closed over by the reconnect setTimeout callback: it restarts
the redirector and grabs keyboard input, re-reading the refs when it
fires. -/
inductive TimerAction
  | restartKVM
deriving DecidableEq

/-- Observable external effects emitted by the KVM component handlers. -/
inductive Effect
  | clearRect
  | redirectorStop
  | unGrabKeyInput
  | redirectorStart
  | grabKeyInput
  | setModuleBpp (v : Nat)
  | setTimeout (delayMs : Nat) (action : TimerAction)
deriving DecidableEq

/-- State of one KVM component instance: the two useState values, the
seven useRef cells that matter to connection logic. -/
structure KVMState where
  kvmstate : Nat
  encodingOption : Nat
  moduleRef : Option AMTDesktop
  dataProcessorRef : Option Unit
  redirectorRef : Option RedirectorConfig
  mouseHelperRef : Option MouseHelper
  keyboardRef : Option Unit
  desktopSettingsChange : Bool
  ctxRef : Option Unit
  prevDeviceId : Option String
deriving DecidableEq

/-- cleanUp: nulls the five handler refs and clears the canvas when a
drawing context is present. The context ref itself is kept. -/
def cleanUp (s : KVMState) : KVMState × List Effect :=
  ({ s with
      moduleRef := none
      dataProcessorRef := none
      redirectorRef := none
      mouseHelperRef := none
      keyboardRef := none },
    if s.ctxRef.isSome then [Effect.clearRect] else [])

/-- Debounce value actually passed to the MouseHelper constructor:
mouseDebounceTime below 200 is raised to 200. -/
def effectiveDebounce (t : Int) : Int :=
  if t < 200 then 200 else t

/-- init: when a canvas context exists, rebuilds the handler object
graph (AMTDesktop, AMTKvmDataRedirector, DataProcessor, MouseHelper,
KeyBoardHelper), wires the callbacks and assigns the current
encodingOption to the desktop handler bpp field; with no context it
only logs a warning and returns. -/
def init (p : KVMProps) (s : KVMState) : KVMState × List Effect :=
  if s.ctxRef.isSome then
    ({ s with
        moduleRef := some { bpp := s.encodingOption }
        redirectorRef := some (mkKvmConfig p.deviceId p.mpsServer p.authToken)
        dataProcessorRef := some ()
        mouseHelperRef := some { debounce := effectiveDebounce p.mouseDebounceTime }
        keyboardRef := some () },
      [Effect.setModuleBpp s.encodingOption])
  else (s, [])

/-- reset: cleanUp followed by init. -/
def reset (p : KVMProps) (s : KVMState) : KVMState × List Effect :=
  ((init p (cleanUp s).1).1, (cleanUp s).2 ++ (init p (cleanUp s).1).2)

/-- startKVM: starts the redirector and grabs keyboard input, each
guarded by a null check on its ref. -/
def startKVM (s : KVMState) : KVMState × List Effect :=
  (s,
    (if s.redirectorRef.isSome then [Effect.redirectorStart] else []) ++
      (if s.keyboardRef.isSome then [Effect.grabKeyInput] else []))

/-- stopKVM: stops the redirector, ungrabs keyboard input (each guarded
by a null check) and then resets the component. -/
def stopKVM (p : KVMProps) (s : KVMState) : KVMState × List Effect :=
  ((reset p s).1,
    ((if s.redirectorRef.isSome then [Effect.redirectorStop] else []) ++
        (if s.keyboardRef.isSome then [Effect.unGrabKeyInput] else [])) ++
      (reset p s).2)

/-- changeDesktopSettings: while connected (kvmstate = 2) it latches the
settings-changed flag, writes the new encoding into the desktop handler
bpp field and stops; otherwise it stores the new encoding in the
encodingOption state and the bpp field. The string-to-number coercion
applied to settings.encoding in the source is elided: the encoding
argument is the already-numeric value. -/
def changeDesktopSettings (p : KVMProps) (s : KVMState) (encoding : Nat) :
    KVMState × List Effect :=
  if s.kvmstate = 2 then
    let s1 : KVMState := { s with desktopSettingsChange := true }
    let upd : KVMState × List Effect :=
      match s1.moduleRef with
      | some m =>
        ({ s1 with moduleRef := some { m with bpp := encoding } },
          [Effect.setModuleBpp encoding])
      | none => (s1, [])
    ((stopKVM p upd.1).1, upd.2 ++ (stopKVM p upd.1).2)
  else
    let s1 : KVMState := { s with encodingOption := encoding }
    match s1.moduleRef with
    | some m =>
      ({ s1 with moduleRef := some { m with bpp := encoding } },
        [Effect.setModuleBpp encoding])
    | none => (s1, [])

/-- OnConnectionStateChange: records the new connection state; when the
settings-changed flag is set and the reported state is disconnected, it
clears the flag and schedules the restart action with a 2000 ms delay. -/
def OnConnectionStateChange (s : KVMState) (state : Nat) :
    KVMState × List Effect :=
  if s.desktopSettingsChange = true ∧ state = 0 then
    ({ s with kvmstate := state, desktopSettingsChange := false },
      [Effect.setTimeout 2000 TimerAction.restartKVM])
  else ({ s with kvmstate := state }, [])

/-- Semantics of a fired timer action: the restart callback re-reads the
refs and, when present, starts the redirector and grabs keyboard input. -/
def runTimerAction : TimerAction → KVMState → KVMState × List Effect
  | TimerAction.restartKVM, s =>
    (s,
      (if s.redirectorRef.isSome then [Effect.redirectorStart] else []) ++
        (if s.keyboardRef.isSome then [Effect.grabKeyInput] else []))

/-- Absolute time at which a timer scheduled now with the given delay
fires. -/
def timerFireTime (now delayMs : Nat) : Nat :=
  now + delayMs

/-- onError handler installed on the redirector: cleanUp followed by the
current init, that is, exactly reset. It does not call redirector.stop
and does not ungrab keyboard input. -/
def onRedirectorError (p : KVMProps) (s : KVMState) : KVMState × List Effect :=
  reset p s

/-- n consecutive redirector errors, each handled by onRedirectorError. -/
def iterateOnError (p : KVMProps) : Nat → KVMState → KVMState
  | 0, s => s
  | n + 1, s => iterateOnError p n (onRedirectorError p s).1

/-- Device-id change effect: when the tracked previous device id differs
from the current deviceId prop, the component stops (which also resets
with the new props) and records the new device id. -/
def deviceIdChangeEffect (p : KVMProps) (s : KVMState) : KVMState × List Effect :=
  if s.prevDeviceId ≠ p.deviceId then
    ({ (stopKVM p s).1 with prevDeviceId := p.deviceId }, (stopKVM p s).2)
  else (s, [])

/-- External AMTIDER handler object: the four byte counters of the IDER
transfer statistics. -/
structure AMTIDER where
  floppyRead : Nat
  floppyWrite : Nat
  cdromRead : Nat
  cdromWrite : Nat
deriving DecidableEq

/-- iderSectorStats callback of the IDER component: on a sector callback
with a non-null handler, mode 1 is a read and anything else a write;
device 0 is the floppy (512-byte sectors) and anything else the CD-ROM
(2048-byte sectors); the matching counter grows by len sectors worth of
bytes. With a null handler nothing happens. -/
def iderSectorStats (ider : Option AMTIDER)
    (mode dev _total _start len : Nat) : Option AMTIDER :=
  match ider with
  | none => none
  | some st =>
    if mode = 1 then
      if dev = 0 then some { st with floppyRead := st.floppyRead + len * 512 }
      else some { st with cdromRead := st.cdromRead + len * 2048 }
    else
      if dev = 0 then some { st with floppyWrite := st.floppyWrite + len * 512 }
      else some { st with cdromWrite := st.cdromWrite + len * 2048 }

/-- Key event data used by the terminal onKey handler (the relevant
fields of the DOM KeyboardEvent). -/
structure KeyEvt where
  ctrlKey : Bool
  key : String
deriving DecidableEq

/-- Selection state of the xterm instance at the moment of the key
event: hasSelection() and getSelection(). -/
structure XtermState where
  hasSelection : Bool
  selection : String
deriving DecidableEq

/-- Observable effects of the terminal onKey handler. -/
inductive TermEffect
  | preventDefault
  | clipboardWrite (text : String)
  | clipboardRead
  | sendKey (data : String)
deriving DecidableEq

/-- onKey handler of the Term component: Ctrl with lowercase c copies
the selection to the clipboard when one exists and otherwise sends the
single ETX byte 0x03; Ctrl with v reads the clipboard; Backspace sends
the destructive three-byte sequence backspace, space, backspace; any
other key is forwarded as the xterm-provided key string. -/
def onKeyHandler (x : XtermState) (key : String) (domEvent : KeyEvt) :
    List TermEffect :=
  TermEffect.preventDefault ::
    (if domEvent.ctrlKey && domEvent.key == "c" then
      if x.hasSelection then [TermEffect.clipboardWrite x.selection]
      else [TermEffect.sendKey "\x03"]
    else if domEvent.ctrlKey && domEvent.key == "v" then
      [TermEffect.clipboardRead]
    else
      [TermEffect.sendKey (if domEvent.key == "Backspace" then "\x08 \x08" else key)])

/-- Mount latch of the Term component: the openedRef cell. -/
structure TermMountState where
  opened : Bool
deriving DecidableEq

/-- Observable effects of the Term mount effect. -/
inductive MountEffect
  | xtermOpen
  | xtermClear
  | xtermReset
  | xtermFocus
  | registerOnKey
deriving DecidableEq

/-- Mount effect of the Term component: a no-op when the DOM element or
the xterm instance is missing or the one-shot latch is already set;
otherwise it sets the latch, attaches xterm to the DOM node, clears,
resets, focuses, and registers the key handler. -/
def mountEffect (elementPresent xtermPresent : Bool) (s : TermMountState) :
    TermMountState × List MountEffect :=
  if !elementPresent || !xtermPresent || s.opened then (s, [])
  else
    ({ opened := true },
      [MountEffect.xtermOpen, MountEffect.xtermClear, MountEffect.xtermReset,
        MountEffect.xtermFocus, MountEffect.registerOnKey])

/-- EncodingOptions dropdown disabled attribute: disabled exactly when
the connection state reported by getConnectState equals 2. -/
def encodingSelectDisabled (connectState : Nat) : Bool :=
  connectState == 2

/-- Sample KVM props used by concrete witnesses. -/
def sampleProps : KVMProps :=
  { deviceId := some "device-a"
    mpsServer := some "http://mps.example"
    mouseDebounceTime := 250
    authToken := "token" }

/-- Sample connected KVM component state used by concrete witnesses. -/
def sampleConnected : KVMState :=
  { kvmstate := 2
    encodingOption := 1
    moduleRef := some { bpp := 1 }
    dataProcessorRef := some ()
    redirectorRef := some (mkKvmConfig sampleProps.deviceId sampleProps.mpsServer sampleProps.authToken)
    mouseHelperRef := some { debounce := 250 }
    keyboardRef := some ()
    desktopSettingsChange := false
    ctxRef := some ()
    prevDeviceId := some "device-a" }

/-- Claim C4: the debounce value handed to the MouseHelper constructor
is exactly 200 when the mouseDebounceTime prop is below 200 and the
prop value itself otherwise, that is, the maximum of the input and 200. -/
theorem kvm_mouse_debounce_floor (p : KVMProps) (s : KVMState)
    (hctx : s.ctxRef.isSome = true) :
    (init p s).1.mouseHelperRef =
      some { debounce := effectiveDebounce p.mouseDebounceTime } ∧
    (p.mouseDebounceTime < 200 → effectiveDebounce p.mouseDebounceTime = 200) ∧
    (200 ≤ p.mouseDebounceTime →
      effectiveDebounce p.mouseDebounceTime = p.mouseDebounceTime) ∧
    effectiveDebounce p.mouseDebounceTime = max p.mouseDebounceTime 200 := by
  refine ⟨?_, ?_, ?_, ?_⟩
  · simp [init, hctx]
  · intro h
    simp [effectiveDebounce, h]
  · intro h
    simp [effectiveDebounce, not_lt.mpr h]
  · rcases lt_or_le p.mouseDebounceTime 200 with h | h
    · simp [effectiveDebounce, h, max_eq_right h.le]
    · simp [effectiveDebounce, not_lt.mpr h, max_eq_left h]

/-- Claim C4 witness: with mouseDebounceTime 50 the MouseHelper is built
with debounce 200. -/
theorem kvm_mouse_debounce_floor_witness :
    sampleConnected.ctxRef.isSome = true ∧
    (init { deviceId := some "device-a", mpsServer := some "http://mps.example",
            mouseDebounceTime := 50, authToken := "token" }
        sampleConnected).1.mouseHelperRef = some { debounce := 200 } := by
  have h := kvm_mouse_debounce_floor
    { deviceId := some "device-a", mpsServer := some "http://mps.example",
      mouseDebounceTime := 50, authToken := "token" } sampleConnected rfl
  refine ⟨rfl, ?_⟩
  simpa [effectiveDebounce] using h.1

/-- Claim C5: with a non-null IDER handler, a sector callback adds
exactly len times 512 bytes to floppyRead on a floppy read, len times
2048 to cdromRead on a CD-ROM read, len times 512 to floppyWrite on a
floppy write and len times 2048 to cdromWrite on a CD-ROM write,
leaving the other three counters unchanged; in particular a read of 10
floppy sectors adds 5120 bytes and a write of 5 CD-ROM sectors adds
10240 bytes. -/
theorem ider_sector_stats_update (st : AMTIDER)
    (mode dev total start len : Nat) :
    (mode = 1 → dev = 0 →
      iderSectorStats (some st) mode dev total start len =
        some { st with floppyRead := st.floppyRead + len * 512 }) ∧
    (mode = 1 → dev ≠ 0 →
      iderSectorStats (some st) mode dev total start len =
        some { st with cdromRead := st.cdromRead + len * 2048 }) ∧
    (mode ≠ 1 → dev = 0 →
      iderSectorStats (some st) mode dev total start len =
        some { st with floppyWrite := st.floppyWrite + len * 512 }) ∧
    (mode ≠ 1 → dev ≠ 0 →
      iderSectorStats (some st) mode dev total start len =
        some { st with cdromWrite := st.cdromWrite + len * 2048 }) ∧
    iderSectorStats (some st) 1 0 total start 10 =
      some { st with floppyRead := st.floppyRead + 5120 } ∧
    iderSectorStats (some st) 0 1 total start 5 =
      some { st with cdromWrite := st.cdromWrite + 10240 } := by
  refine ⟨?_, ?_, ?_, ?_, ?_, ?_⟩ <;>
  · intros
    simp [iderSectorStats, *]

/-- Claim C5 witness: starting from zeroed counters, a 10-sector floppy
read yields floppyRead 5120 and a 5-sector CD-ROM write yields
cdromWrite 10240. -/
theorem ider_sector_stats_update_witness :
    iderSectorStats (some ⟨0, 0, 0, 0⟩) 1 0 100 0 10 = some ⟨5120, 0, 0, 0⟩ ∧
    iderSectorStats (some ⟨0, 0, 0, 0⟩) 0 1 100 0 5 = some ⟨0, 0, 0, 10240⟩ := by
  have h1 := ider_sector_stats_update ⟨0, 0, 0, 0⟩ 1 0 100 0 10
  have h2 := ider_sector_stats_update ⟨0, 0, 0, 0⟩ 0 1 100 0 5
  exact ⟨h1.1 rfl rfl, h2.2.2.2.1 (by decide) (by decide)⟩

/-- Claim C6: for a Ctrl plus lowercase c key event, when a selection
exists the handler writes the selection to the clipboard and sends
nothing to the key-press callback, and when no selection exists it
sends exactly one ETX byte 0x03 and performs no clipboard operation. -/
theorem term_ctrl_c_selection_or_etx (x : XtermState) (key : String)
    (e : KeyEvt) (hc : e.ctrlKey = true) (hk : e.key = "c") :
    (x.hasSelection = true →
      onKeyHandler x key e =
        [TermEffect.preventDefault, TermEffect.clipboardWrite x.selection] ∧
      ∀ d, TermEffect.sendKey d ∉ onKeyHandler x key e) ∧
    (x.hasSelection = false →
      onKeyHandler x key e =
        [TermEffect.preventDefault, TermEffect.sendKey "\x03"] ∧
      (onKeyHandler x key e).count (TermEffect.sendKey "\x03") = 1 ∧
      (∀ d, TermEffect.clipboardWrite d ∉ onKeyHandler x key e) ∧
      TermEffect.clipboardRead ∉ onKeyHandler x key e) := by
  constructor
  · intro hsel
    constructor
    · simp [onKeyHandler, hc, hk, hsel]
    · intro d
      simp [onKeyHandler, hc, hk, hsel]
  · intro hsel
    refine ⟨?_, ?_, ?_, ?_⟩
    · simp [onKeyHandler, hc, hk, hsel]
    · simp [onKeyHandler, hc, hk, hsel, List.count_cons]
    · intro d
      simp [onKeyHandler, hc, hk, hsel]
    · simp [onKeyHandler, hc, hk, hsel]

/-- Claim C6 witness: with a selection the handler copies it; without
one it sends the single ETX byte. -/
theorem term_ctrl_c_selection_or_etx_witness :
    onKeyHandler ⟨true, "abc"⟩ "c" ⟨true, "c"⟩ =
      [TermEffect.preventDefault, TermEffect.clipboardWrite "abc"] ∧
    onKeyHandler ⟨false, ""⟩ "c" ⟨true, "c"⟩ =
      [TermEffect.preventDefault, TermEffect.sendKey "\x03"] := by
  exact ⟨((term_ctrl_c_selection_or_etx ⟨true, "abc"⟩ "c" ⟨true, "c"⟩ rfl rfl).1 rfl).1,
    ((term_ctrl_c_selection_or_etx ⟨false, ""⟩ "c" ⟨true, "c"⟩ rfl rfl).2 rfl).1⟩

/-- Claim C7: the Term mount effect is idempotent: starting from an
unopened latch with the DOM element and xterm instance present, running
the mount effect twice opens xterm and registers the key handler
exactly once across both runs, and the second run is a no-op. -/
theorem term_mount_idempotent (s : TermMountState) (h : s.opened = false) :
    (mountEffect true true s).1.opened = true ∧
    (mountEffect true true (mountEffect true true s).1).2 = [] ∧
    (mountEffect true true (mountEffect true true s).1).1 =
      (mountEffect true true s).1 ∧
    ((mountEffect true true s).2 ++
        (mountEffect true true (mountEffect true true s).1).2).count
      MountEffect.xtermOpen = 1 ∧
    ((mountEffect true true s).2 ++
        (mountEffect true true (mountEffect true true s).1).2).count
      MountEffect.registerOnKey = 1 := by
  obtain ⟨o⟩ := s
  cases o with
  | true => simp at h
  | false => decide

/-- Claim C7 witness: from the initial unopened latch, the second mount
invocation emits nothing. -/
theorem term_mount_idempotent_witness :
    (⟨false⟩ : TermMountState).opened = false ∧
    (mountEffect true true (mountEffect true true ⟨false⟩).1).2 = [] :=
  ⟨rfl, (term_mount_idempotent ⟨false⟩ rfl).2.1⟩

/-- Claim C9: every redirector configuration built by the KVM, Sol and
IDER components has port 16994, empty user and pass, tls and tls1only
zero, host equal to the deviceId or the empty string when null,
authToken equal to the supplied token or the empty string when absent,
and server equal to the mpsServer URL with its first http replaced by
ws, or the empty string when mpsServer is null. -/
theorem redirector_config_fields
    (kdev kmps : Option String) (ktok : String)
    (sdev smps stok : Option String)
    (idev imps itok : Option String) :
    ((mkKvmConfig kdev kmps ktok).port = 16994 ∧
      (mkKvmConfig kdev kmps ktok).user = "" ∧
      (mkKvmConfig kdev kmps ktok).pass = "" ∧
      (mkKvmConfig kdev kmps ktok).tls = 0 ∧
      (mkKvmConfig kdev kmps ktok).tls1only = 0 ∧
      (mkKvmConfig kdev kmps ktok).host = kdev.getD "" ∧
      (mkKvmConfig kdev kmps ktok).authToken = ktok ∧
      (mkKvmConfig kdev kmps ktok).server =
        (kmps.map (fun u => jsReplaceFirst u "http" "ws")).getD "") ∧
    ((mkSolConfig sdev smps stok).port = 16994 ∧
      (mkSolConfig sdev smps stok).user = "" ∧
      (mkSolConfig sdev smps stok).pass = "" ∧
      (mkSolConfig sdev smps stok).tls = 0 ∧
      (mkSolConfig sdev smps stok).tls1only = 0 ∧
      (mkSolConfig sdev smps stok).host = sdev.getD "" ∧
      (mkSolConfig sdev smps stok).authToken = stok.getD "" ∧
      (mkSolConfig sdev smps stok).server =
        (smps.map (fun u => jsReplaceFirst u "http" "ws")).getD "") ∧
    ((mkIderConfig idev imps itok).port = 16994 ∧
      (mkIderConfig idev imps itok).user = "" ∧
      (mkIderConfig idev imps itok).pass = "" ∧
      (mkIderConfig idev imps itok).tls = 0 ∧
      (mkIderConfig idev imps itok).tls1only = 0 ∧
      (mkIderConfig idev imps itok).host = idev.getD "" ∧
      (mkIderConfig idev imps itok).authToken = itok.getD "" ∧
      (mkIderConfig idev imps itok).server =
        (imps.map (fun u => jsReplaceFirst u "http" "ws")).getD "") ∧
    jsReplaceFirst "http://mps.example.com" "http" "ws" =
      "ws://mps.example.com" ∧
    jsReplaceFirst "https://mps.example.com" "http" "ws" =
      "wss://mps.example.com" := by
  cases kmps <;> cases smps <;> cases imps <;>
    exact ⟨⟨rfl, rfl, rfl, rfl, rfl, rfl, rfl, rfl⟩,
      ⟨rfl, rfl, rfl, rfl, rfl, rfl, rfl, rfl⟩,
      ⟨rfl, rfl, rfl, rfl, rfl, rfl, rfl, rfl⟩, rfl, rfl⟩

/-- Claim C10: the KVM encoding dropdown is disabled exactly when the
reported connection state is 2 (connected); in every other state,
including connecting (state 1), it stays enabled. -/
theorem encoding_options_disabled_iff_connected :
    (∀ s : Nat, encodingSelectDisabled s = true ↔ s = 2) ∧
    encodingSelectDisabled 0 = false ∧
    encodingSelectDisabled 1 = false ∧
    encodingSelectDisabled 2 = true ∧
    encodingSelectDisabled 3 = false := by
  refine ⟨?_, rfl, rfl, rfl, rfl⟩
  intro s
  simp [encodingSelectDisabled]

/-- The error handler keeps the canvas context ref untouched. -/
theorem onRedirectorError_ctxRef (p : KVMProps) (s : KVMState) :
    (onRedirectorError p s).1.ctxRef = s.ctxRef := by
  obtain ⟨ks, eo, mod, dp, red, mh, kb, flag, ctx, prev⟩ := s
  cases ctx <;> rfl

/-- With a canvas context present, the error handler leaves a freshly
constructed redirector behind. -/
theorem onRedirectorError_redirectorRef (p : KVMProps) (s : KVMState)
    (h : s.ctxRef.isSome = true) :
    (onRedirectorError p s).1.redirectorRef =
      some (mkKvmConfig p.deviceId p.mpsServer p.authToken) := by
  obtain ⟨ks, eo, mod, dp, red, mh, kb, flag, ctx, prev⟩ := s
  dsimp only at h
  rw [Option.isSome_iff_exists] at h
  obtain ⟨c, rfl⟩ := h
  rfl

/-- However many consecutive redirector errors occur, at least one of
which has happened, the handler graph ends up rebuilt: there is no
retry limit. -/
theorem iterateOnError_redirectorRef (p : KVMProps) (n : Nat) :
    ∀ s : KVMState, s.ctxRef.isSome = true →
      (iterateOnError p (n + 1) s).redirectorRef.isSome = true := by
  induction n with
  | zero =>
    intro s h
    show ((onRedirectorError p s).1).redirectorRef.isSome = true
    rw [onRedirectorError_redirectorRef p s h]
    rfl
  | succ k ih =>
    intro s h
    have h2 : ((onRedirectorError p s).1).ctxRef.isSome = true := by
      rw [onRedirectorError_ctxRef]
      exact h
    exact ih (onRedirectorError p s).1 h2

/-- Claim C1: while connected, an encoding change latches the
settings-changed flag, writes the new encoding into the desktop handler
bpp field and immediately stops the connection; a later state callback
reporting disconnected with the flag set clears the flag and schedules
the restart action (redirector start plus keyboard grab) with a 2000 ms
delay, so the restart fires no earlier than 2000 ms after the callback. -/
theorem kvm_encoding_change_connected_delayed_restart
    (p : KVMProps) (s : KVMState) (v : Nat)
    (hconn : s.kvmstate = 2) (hmod : s.moduleRef.isSome = true)
    (hred : s.redirectorRef.isSome = true) (hkey : s.keyboardRef.isSome = true)
    (hctx : s.ctxRef.isSome = true) :
    (changeDesktopSettings p s v).1.desktopSettingsChange = true ∧
    (changeDesktopSettings p s v).2 =
      [Effect.setModuleBpp v, Effect.redirectorStop, Effect.unGrabKeyInput,
        Effect.clearRect, Effect.setModuleBpp s.encodingOption] ∧
    (∀ t : KVMState, t.desktopSettingsChange = true →
      (OnConnectionStateChange t 0).1.desktopSettingsChange = false ∧
      (OnConnectionStateChange t 0).2 =
        [Effect.setTimeout 2000 TimerAction.restartKVM]) ∧
    (∀ now : Nat, now + 2000 ≤ timerFireTime now 2000) ∧
    (∀ t : KVMState, t.redirectorRef.isSome = true →
      t.keyboardRef.isSome = true →
      (runTimerAction TimerAction.restartKVM t).2 =
        [Effect.redirectorStart, Effect.grabKeyInput]) := by
  obtain ⟨ks, eo, mod, dp, red, mh, kb, flag, ctx, prev⟩ := s
  dsimp only at hconn hmod hred hkey hctx ⊢
  subst hconn
  rw [Option.isSome_iff_exists] at hmod hred hkey hctx
  obtain ⟨m, rfl⟩ := hmod
  obtain ⟨r, rfl⟩ := hred
  obtain ⟨k, rfl⟩ := hkey
  obtain ⟨c, rfl⟩ := hctx
  refine ⟨rfl, rfl, ?_, ?_, ?_⟩
  · intro t ht
    constructor
    · simp [OnConnectionStateChange, ht]
    · simp [OnConnectionStateChange, ht]
  · intro now
    simp [timerFireTime]
  · intro t h1 h2
    simp [runTimerAction, h1, h2]

/-- Claim C1 witness: at a concrete connected state, changing encoding
to 2 latches the flag and emits the bpp update followed by the stop,
and the disconnect callback with the flag set schedules the 2000 ms
restart. -/
theorem kvm_encoding_change_connected_delayed_restart_witness :
    sampleConnected.kvmstate = 2 ∧
    (changeDesktopSettings sampleProps sampleConnected 2).1.desktopSettingsChange = true ∧
    (changeDesktopSettings sampleProps sampleConnected 2).2 =
      [Effect.setModuleBpp 2, Effect.redirectorStop, Effect.unGrabKeyInput,
        Effect.clearRect, Effect.setModuleBpp 1] := by
  have h := kvm_encoding_change_connected_delayed_restart sampleProps
    sampleConnected 2 rfl rfl rfl rfl rfl
  exact ⟨rfl, h.1, h.2.1⟩

/-- Claim C2 counterexample: at a concrete fully connected state the
redirector error handler emits neither a redirector stop nor a keyboard
ungrab, although it does rebuild the handler graph; the claim that an
error invokes stop followed by reinitialization is therefore false as
stated. -/
theorem kvm_error_handler_no_stop_counterexample :
    Effect.redirectorStop ∉ (onRedirectorError sampleProps sampleConnected).2 ∧
    Effect.unGrabKeyInput ∉ (onRedirectorError sampleProps sampleConnected).2 ∧
    (onRedirectorError sampleProps sampleConnected).1.redirectorRef.isSome = true := by
  decide

/-- Claim C2 (amended): a redirector-reported error runs cleanUp,
discarding the handler object references without calling redirector
stop or ungrabbing keyboard input, followed by init, rebuilding the
handler object graph; there is no retry limit (after any number of
consecutive errors the graph is rebuilt again) and no backoff (no timer
is ever scheduled by the handler). -/
theorem kvm_error_cleanup_then_reinit (p : KVMProps) (s : KVMState)
    (hctx : s.ctxRef.isSome = true) :
    onRedirectorError p s = reset p s ∧
    (onRedirectorError p s).1.redirectorRef =
      some (mkKvmConfig p.deviceId p.mpsServer p.authToken) ∧
    (onRedirectorError p s).1.moduleRef = some { bpp := s.encodingOption } ∧
    (onRedirectorError p s).1.keyboardRef = some () ∧
    (onRedirectorError p s).2 =
      [Effect.clearRect, Effect.setModuleBpp s.encodingOption] ∧
    Effect.redirectorStop ∉ (onRedirectorError p s).2 ∧
    Effect.unGrabKeyInput ∉ (onRedirectorError p s).2 ∧
    (∀ d a, Effect.setTimeout d a ∉ (onRedirectorError p s).2) ∧
    (∀ n, (iterateOnError p (n + 1) s).redirectorRef.isSome = true) := by
  have hiter := fun n => iterateOnError_redirectorRef p n s hctx
  obtain ⟨ks, eo, mod, dp, red, mh, kb, flag, ctx, prev⟩ := s
  dsimp only at hctx ⊢
  rw [Option.isSome_iff_exists] at hctx
  obtain ⟨c, rfl⟩ := hctx
  refine ⟨rfl, rfl, rfl, rfl, rfl, ?_, ?_, ?_, hiter⟩
  · simp [onRedirectorError, reset, cleanUp, init]
  · simp [onRedirectorError, reset, cleanUp, init]
  · intro d a
    simp [onRedirectorError, reset, cleanUp, init]

/-- Claim C2 witness: at a concrete state with a canvas context, the
error handler clears the canvas and reassigns the fresh desktop bpp,
nothing else. -/
theorem kvm_error_cleanup_then_reinit_witness :
    sampleConnected.ctxRef.isSome = true ∧
    (onRedirectorError sampleProps sampleConnected).2 =
      [Effect.clearRect, Effect.setModuleBpp 1] := by
  have h := kvm_error_cleanup_then_reinit sampleProps sampleConnected rfl
  exact ⟨rfl, h.2.2.2.2.1⟩

/-- Claim C3: when the deviceId prop differs from the tracked previous
device id while a connection exists (redirector and keyboard refs
non-null), the change effect invokes redirector stop and keyboard
ungrab exactly once each, before the component state is rebuilt for the
new device. -/
theorem kvm_deviceId_change_stops_once (p : KVMProps) (s : KVMState)
    (hch : s.prevDeviceId ≠ p.deviceId)
    (hred : s.redirectorRef.isSome = true) (hkey : s.keyboardRef.isSome = true)
    (hctx : s.ctxRef.isSome = true) :
    (deviceIdChangeEffect p s).2 =
      [Effect.redirectorStop, Effect.unGrabKeyInput, Effect.clearRect,
        Effect.setModuleBpp s.encodingOption] ∧
    (deviceIdChangeEffect p s).2.count Effect.redirectorStop = 1 ∧
    (deviceIdChangeEffect p s).2.count Effect.unGrabKeyInput = 1 ∧
    (deviceIdChangeEffect p s).1.prevDeviceId = p.deviceId ∧
    (deviceIdChangeEffect p s).1.redirectorRef =
      some (mkKvmConfig p.deviceId p.mpsServer p.authToken) ∧
    (deviceIdChangeEffect p s).1.keyboardRef = some () := by
  obtain ⟨ks, eo, mod, dp, red, mh, kb, flag, ctx, prev⟩ := s
  dsimp only at hch hred hkey hctx ⊢
  rw [Option.isSome_iff_exists] at hred hkey hctx
  obtain ⟨r, rfl⟩ := hred
  obtain ⟨k, rfl⟩ := hkey
  obtain ⟨c, rfl⟩ := hctx
  simp [deviceIdChangeEffect, hch, stopKVM, reset, cleanUp, init,
    List.count_cons]

/-- Claim C3 witness: at a concrete connected state, a device change
emits exactly one stop and one ungrab. -/
theorem kvm_deviceId_change_stops_once_witness :
    sampleConnected.prevDeviceId ≠ some "device-b" ∧
    (deviceIdChangeEffect
        { sampleProps with deviceId := some "device-b" } sampleConnected).2 =
      [Effect.redirectorStop, Effect.unGrabKeyInput, Effect.clearRect,
        Effect.setModuleBpp 1] := by
  have h := kvm_deviceId_change_stops_once
    { sampleProps with deviceId := some "device-b" } sampleConnected
    (by decide) rfl rfl rfl
  exact ⟨by decide, h.1⟩

/-- Claim C8: an encoding change while not connected immediately stores
the selected value in the encodingOption state and the desktop handler
bpp field, leaves the settings-changed flag and the connection state
untouched, emits only the bpp update, and in particular neither calls
redirector stop nor schedules any timer. -/
theorem kvm_encoding_change_disconnected_no_reconnect
    (p : KVMProps) (s : KVMState) (v : Nat)
    (hnc : s.kvmstate ≠ 2) (hmod : s.moduleRef.isSome = true) :
    (changeDesktopSettings p s v).1.encodingOption = v ∧
    (changeDesktopSettings p s v).1.moduleRef = some { bpp := v } ∧
    (changeDesktopSettings p s v).1.desktopSettingsChange =
      s.desktopSettingsChange ∧
    (changeDesktopSettings p s v).1.kvmstate = s.kvmstate ∧
    (changeDesktopSettings p s v).2 = [Effect.setModuleBpp v] ∧
    Effect.redirectorStop ∉ (changeDesktopSettings p s v).2 ∧
    ∀ d a, Effect.setTimeout d a ∉ (changeDesktopSettings p s v).2 := by
  obtain ⟨ks, eo, mod, dp, red, mh, kb, flag, ctx, prev⟩ := s
  dsimp only at hnc hmod ⊢
  rw [Option.isSome_iff_exists] at hmod
  obtain ⟨m, rfl⟩ := hmod
  simp [changeDesktopSettings, hnc]

/-- Claim C8 witness: at a concrete disconnected state, an encoding
change to 2 updates the pending value and emits only the bpp update. -/
theorem kvm_encoding_change_disconnected_no_reconnect_witness :
    ({ sampleConnected with kvmstate := 0 } : KVMState).kvmstate ≠ 2 ∧
    (changeDesktopSettings sampleProps
        { sampleConnected with kvmstate := 0 } 2).1.encodingOption = 2 ∧
    (changeDesktopSettings sampleProps
        { sampleConnected with kvmstate := 0 } 2).2 =
      [Effect.setModuleBpp 2] := by
  have h := kvm_encoding_change_disconnected_no_reconnect sampleProps
    { sampleConnected with kvmstate := 0 } 2 (by decide) rfl
  exact ⟨by decide, h.1, h.2.2.2.2.1⟩

end UiToolkit
